import Mathlib

/-!
Verification of the lumora-sandbox backend (`src/backend/main.py` and
`src/backend/tools_router.py`) against its natural-language specification.

The Python source is shallowly embedded: pure helpers become Lean functions,
the directory walk (`os.walk`) becomes a fuel-indexed worklist over a finite
graph of physical directory nodes (so that cyclic physical structures such as
bind mounts are expressible), HTTP failures become `Except`, and the Ollama
model client becomes an explicit function parameter.  All definitions are
executable and reduce by `rfl` / `decide` on concrete inputs.
-/

namespace LumoraSandbox

/-! ## Character / string helpers

Structural reimplementations of the Python string primitives used by the
source (`str.strip`, `str.lower`, `in` substring test, `sorted`,
`str.split('\n')`, `pathlib.PurePath.suffix`).  They are written by structural
recursion over `List Char` so that every concrete application reduces inside
the kernel. -/

def isWsChar (c : Char) : Bool :=
  c == ' ' || c == '\t' || c == '\n' || c == '\r'

/-- Python `str.strip()` (whitespace at both ends). -/
def pyStrip (s : String) : String :=
  String.mk (((s.data.dropWhile isWsChar).reverse.dropWhile isWsChar).reverse)

/-- Python `str.lower()` (ASCII case folding suffices for the source's uses). -/
def pyLower (s : String) : String :=
  String.mk (s.data.map Char.toLower)

def containsAux (p : List Char) : List Char → Bool
  | [] => p.isEmpty
  | c :: rest => p.isPrefixOf (c :: rest) || containsAux p rest

/-- Python `pat in s` substring containment. -/
def containsSub (pat s : String) : Bool :=
  containsAux pat.data s.data

/-- Code-point comparison on strings, as Python `<=` on `str`. -/
def lexLe : List Char → List Char → Bool
  | [], _ => true
  | _ :: _, [] => false
  | a :: as, b :: bs =>
      if a.val < b.val then true
      else if b.val < a.val then false
      else lexLe as bs

def strLe (a b : String) : Bool := lexLe a.data b.data

def insertSorted (x : String) : List String → List String
  | [] => [x]
  | y :: ys => if strLe x y then x :: y :: ys else y :: insertSorted x ys

/-- Python `sorted` on a list of strings (stable insertion sort). -/
def pySorted : List String → List String
  | [] => []
  | x :: xs => insertSorted x (pySorted xs)

def splitOnCharAux (sep : Char) (acc : List Char) : List Char → List String
  | [] => [String.mk acc.reverse]
  | c :: rest =>
      if c == sep then String.mk acc.reverse :: splitOnCharAux sep [] rest
      else splitOnCharAux sep (c :: acc) rest

/-- Python `s.split(sep)` for a one-character separator. -/
def splitOnChar (sep : Char) (s : String) : List String :=
  splitOnCharAux sep [] s.data

def lastIndexOfAux (c : Char) : List Char → Nat → Option Nat → Option Nat
  | [], _, best => best
  | x :: rest, i, best =>
      lastIndexOfAux c rest (i + 1) (if x == c then some i else best)

/-- Python `pathlib.PurePath.suffix` of a file NAME: with `i = name.rfind(".")`,
the suffix is `name[i:]` when `0 < i < len(name) - 1`, else the empty string. -/
def pySuffix (name : String) : String :=
  let cs := name.data
  match lastIndexOfAux '.' cs 0 none with
  | none => ""
  | some i => if 0 < i && i + 1 < cs.length then String.mk (cs.drop i) else ""

/-! ## PathSandbox (`validate_safe_path`, src/backend/main.py lines 41-57)

A resolved absolute path is modelled as its list of path components
(`Path.parts` without the leading `/`).  Canonicalization
(`Path(p).expanduser().resolve()`), which depends on the symlink state of the
filesystem, is a parameter `resolve`; `Path.relative_to` succeeds exactly when
the components of the base are a prefix of the components of the path, which
is what the source relies on. -/

/-- Rendered string form of a resolved absolute path (`str(resolved)`). -/
def renderPath (segs : List String) : String :=
  "/" ++ String.intercalate "/" segs

/-- A `fastapi.HTTPException(status_code, detail)`. -/
structure HErr where
  status : Nat
  detail : String
deriving DecidableEq, Repr

def sensitive_patterns : List String :=
  ["/etc/", "/sys/", "/proc/", "/.ssh/", "/root/"]

/-- Source `validate_safe_path(requested_path, allowed_base)`: resolve the requested
path, require it to lie under the resolved allowed base
(`resolved.relative_to(allowed)`, raising 403 otherwise), then reject resolved
paths whose string form contains a sensitive substring (403), and finally
return the resolved path. -/
def validate_safe_path (resolve : String → List String)
    (requested_path : String) (allowed_base : String) :
    Except HErr (List String) :=
  let resolved := resolve requested_path
  let allowed := resolve allowed_base
  if allowed.isPrefixOf resolved then
    if sensitive_patterns.any (fun pat => containsSub pat (renderPath resolved)) then
      Except.error ⟨403, "Access to system directories denied"⟩
    else
      Except.ok resolved
  else
    Except.error ⟨403, "Path outside allowed workspace root: " ++ renderPath allowed⟩

/-- A purely lexical canonicalizer: the behaviour of `Path(p).resolve()` on a
filesystem that contains no symlinks (collapses `.`, `..` and empty
segments).  Used to instantiate `resolve` in witnesses. -/
def resolveLexical (s : String) : List String :=
  (splitOnChar '/' s).foldl
    (fun acc seg =>
      if seg = "" || seg = "." then acc
      else if seg = ".." then acc.dropLast
      else acc ++ [seg]) []

/-- RESULT C1: any raw path whose resolved form is not equal to or a
descendant of the resolved authorized root is rejected with the
`OutsideRoot` HTTP-403 error, before the sensitive-pattern check and with no
path returned; the containment test compares resolved component lists, never
raw strings. -/
theorem validate_safe_path_outside_root
    (resolve : String → List String) (p root : String)
    (h : (resolve root).isPrefixOf (resolve p) = false) :
    validate_safe_path resolve p root =
      Except.error ⟨403, "Path outside allowed workspace root: " ++ renderPath (resolve root)⟩ := by
  unfold validate_safe_path
  simp [h]

/-- Witness for C1 at a concrete input: the raw string
`/home/u/../../etc/passwd` starts with the root `/home/u` lexically, yet its
resolved form `["etc","passwd"]` escapes the root and is rejected. -/
theorem validate_safe_path_outside_root_witness :
    (resolveLexical "/home/u").isPrefixOf (resolveLexical "/home/u/../../etc/passwd") = false ∧
    validate_safe_path resolveLexical "/home/u/../../etc/passwd" "/home/u" =
      Except.error ⟨403, "Path outside allowed workspace root: /home/u"⟩ :=
  ⟨by rfl, validate_safe_path_outside_root resolveLexical _ _ (by rfl)⟩

/-- RESULT C7: a raw path that resolves inside the authorized root but whose
rendered resolved form contains one of the fixed denylisted substrings is
rejected with the `SensitiveLocation` HTTP-403 error. -/
theorem validate_safe_path_sensitive
    (resolve : String → List String) (p root : String)
    (h1 : (resolve root).isPrefixOf (resolve p) = true)
    (h2 : sensitive_patterns.any
      (fun pat => containsSub pat (renderPath (resolve p))) = true) :
    validate_safe_path resolve p root =
      Except.error ⟨403, "Access to system directories denied"⟩ := by
  unfold validate_safe_path
  simp [h1, h2]

/-- Witness for C7 at a concrete input: `/home/u/.ssh/id_rsa` is inside the
root `/home/u` but contains the denylisted substring `/.ssh/`. -/
theorem validate_safe_path_sensitive_witness :
    (resolveLexical "/home/u").isPrefixOf (resolveLexical "/home/u/.ssh/id_rsa") = true ∧
    sensitive_patterns.any
      (fun pat => containsSub pat (renderPath (resolveLexical "/home/u/.ssh/id_rsa"))) = true ∧
    validate_safe_path resolveLexical "/home/u/.ssh/id_rsa" "/home/u" =
      Except.error ⟨403, "Access to system directories denied"⟩ :=
  ⟨by rfl, by rfl,
    validate_safe_path_sensitive resolveLexical _ _ (by rfl) (by rfl)⟩

/-! ## WorkspaceScanner (`scan_workspace_structure`, src/backend/tools_router.py lines 48-111)

The filesystem is modelled as a finite graph of physical directory nodes:
node ids index `DirNode`s carrying the physical identity (`st_ino`), the named
subdirectory edges, and the contained files (name and content).  A graph — as
opposed to a tree — is required because bind-mounted or hard-linked structures
can make the same physical directory reachable along several (even infinitely
many) paths, which is exactly the situation the source's inode guard is meant
to handle.  `os.walk(workspace, followlinks=False)` becomes a fuel-indexed
worklist: frames are (node, path-relative-to-root) pairs processed in
depth-first order, children pushed in front; running out of fuel returns
`none`, so `none` for every fuel witnesses divergence of the Python loop. -/

structure DirNode where
  ino : Nat
  subdirs : List (String × Nat)
  files : List (String × String)
deriving Repr

def Graph : Type := Nat → DirNode

structure ScanStructure where
  directories : List String
  files : List String
  total_files : Nat
  total_dirs : Nat
  truncated : Bool
deriving DecidableEq, Repr

def emptyScanStructure : ScanStructure :=
  { directories := [], files := [], total_files := 0, total_dirs := 0, truncated := false }

def ignore_dirs : List String :=
  [".git", "node_modules", "__pycache__", "venv", ".venv", "dist", "build", ".next"]

def MAX_FILES : Nat := 10000

def MAX_DIRS : Nat := 1000

structure WalkFrame where
  node : Nat
  rel : List String
deriving Repr

/-- Python `str(Path(root).relative_to(workspace))`: `"."` for the root itself. -/
def relRootStr (rel : List String) : String :=
  if rel = [] then "." else String.intercalate "/" rel

/-- The `for file in files` loop of the scan: each file is appended only while
`total_files < MAX_FILES`; files beyond the ceiling are dropped silently,
without setting `truncated`. -/
def scanAddFiles (rel_root : String) (fs : List String) (s : ScanStructure) :
    ScanStructure :=
  match fs with
  | [] => s
  | f :: rest =>
      let s' :=
        if s.total_files < MAX_FILES then
          { s with
            files := s.files ++ [if rel_root = "." then f else rel_root ++ "/" ++ f],
            total_files := s.total_files + 1 }
        else s
      scanAddFiles rel_root rest s'

/-- One frame of the `for root, dirs, files in os.walk(...)` loop, in source
order: limit check (break, setting `truncated`), inode guard (`continue`
WITHOUT touching `dirs`, so the walk still descends into every subdirectory of
an already-seen directory, unpruned and depth-unchecked), ignore-set pruning,
depth ceiling (`dirs.clear(); continue`, recording nothing), directory record
(guarded by `MAX_DIRS`), file records (guarded by `MAX_FILES`). -/
def scanWalk (g : Graph) (max_depth : Nat) :
    Nat → List WalkFrame → ScanStructure → List Nat → Option ScanStructure
  | _, [], s, _ => some s
  | 0, _ :: _, _, _ => none
  | fuel + 1, fr :: rest, s, seen =>
      if s.total_files ≥ MAX_FILES || s.total_dirs ≥ MAX_DIRS then
        some { s with truncated := true }
      else
        let node := g fr.node
        if seen.contains node.ino then
          scanWalk g max_depth fuel
            ((node.subdirs.map (fun c => ⟨c.2, fr.rel ++ [c.1]⟩)) ++ rest) s seen
        else
          let seen' := node.ino :: seen
          let pruned := node.subdirs.filter (fun c => !(ignore_dirs.contains c.1))
          if fr.rel.length ≥ max_depth then
            scanWalk g max_depth fuel rest s seen'
          else
            let rr := relRootStr fr.rel
            let s1 :=
              if fr.rel = [] then s
              else if s.total_dirs < MAX_DIRS then
                { s with
                  directories := s.directories ++ [rr],
                  total_dirs := s.total_dirs + 1 }
              else s
            let s2 := scanAddFiles rr (node.files.map Prod.fst) s1
            scanWalk g max_depth fuel
              ((pruned.map (fun c => ⟨c.2, fr.rel ++ [c.1]⟩)) ++ rest) s2 seen'

/-- Source `scan_workspace_structure(workspace_path, max_depth)`: `root = none` models
a workspace path for which `workspace.exists()` is false — the empty structure
is returned unconditionally, with no exception. -/
def scan_workspace_structure (g : Graph) (root : Option Nat)
    (max_depth : Nat) (fuel : Nat) : Option ScanStructure :=
  match root with
  | none => some emptyScanStructure
  | some r => scanWalk g max_depth fuel [⟨r, []⟩] emptyScanStructure []

/-! ### Scanner lemmas -/

theorem scanAddFiles_truncated (rr : String) (fs : List String) (s : ScanStructure) :
    (scanAddFiles rr fs s).truncated = s.truncated := by
  induction fs generalizing s with
  | nil => rfl
  | cons f rest ih =>
      simp only [scanAddFiles]
      split <;> simp [ih]

theorem scanAddFiles_total (rr : String) (fs : List String) (s : ScanStructure)
    (h : s.total_files ≤ MAX_FILES) :
    (scanAddFiles rr fs s).total_files = min (s.total_files + fs.length) MAX_FILES := by
  induction fs generalizing s with
  | nil => simp [scanAddFiles]; omega
  | cons f rest ih =>
      simp only [scanAddFiles]
      split
      · rename_i hlt
        rw [ih { s with
            files := s.files ++ [if rr = "." then f else rr ++ "/" ++ f],
            total_files := s.total_files + 1 } (by simp; omega)]
        simp
        omega
      · rename_i hge
        rw [ih s h]
        simp
        omega

theorem scanAddFiles_len (rr : String) (fs : List String) (s : ScanStructure)
    (h : s.files.length = s.total_files) :
    (scanAddFiles rr fs s).files.length = (scanAddFiles rr fs s).total_files := by
  induction fs generalizing s with
  | nil => exact h
  | cons f rest ih =>
      simp only [scanAddFiles]
      split
      · exact ih _ (by simp [h])
      · exact ih _ h

/-- Invariant of the walk: as long as the structure's file list length tracks
`total_files` and `total_files` is within the ceiling, any result the walk
returns keeps `total_files` within the ceiling. -/
theorem scanWalk_files_bound (g : Graph) (d : Nat) :
    ∀ (fuel : Nat) (stack : List WalkFrame) (s : ScanStructure) (seen : List Nat),
      s.files.length = s.total_files → s.total_files ≤ MAX_FILES →
      ∀ out, scanWalk g d fuel stack s seen = some out →
        out.files.length = out.total_files ∧ out.total_files ≤ MAX_FILES := by
  intro fuel
  induction fuel with
  | zero =>
      intro stack s seen hlen hle out hout
      cases stack with
      | nil => cases hout; exact ⟨hlen, hle⟩
      | cons fr rest => exact absurd hout (by simp [scanWalk])
  | succ n ih =>
      intro stack s seen hlen hle out hout
      cases stack with
      | nil => cases hout; exact ⟨hlen, hle⟩
      | cons fr rest =>
          simp only [scanWalk] at hout
          split at hout
          · cases hout; exact ⟨hlen, hle⟩
          · split at hout
            · exact ih _ _ _ hlen hle out hout
            · split at hout
              · exact ih _ _ _ hlen hle out hout
              · refine ih _ _ _ ?_ ?_ out hout
                · apply scanAddFiles_len
                  split
                  · exact hlen
                  · split
                    · simp [hlen]
                    · exact hlen
                · have h1 : (if fr.rel = [] then s
                      else if s.total_dirs < MAX_DIRS then
                        { s with
                          directories := s.directories ++ [relRootStr fr.rel],
                          total_dirs := s.total_dirs + 1 }
                      else s).total_files = s.total_files := by
                    split
                    · rfl
                    · split <;> rfl
                  rw [scanAddFiles_total _ _ _ (by rw [h1]; exact hle), h1]
                  omega

/-! ### Concrete scanner inputs -/

/-- A workspace whose root is an empty directory. -/
def emptyDirGraph : Graph := fun _ => ⟨1, [], []⟩

/-- A workspace whose root directory contains `MAX_FILES + 1` files and no
subdirectories. -/
def bigDirNode : DirNode := ⟨1, [], List.replicate 10001 ("f", "")⟩

def bigGraph : Graph := fun _ => bigDirNode

/-- A workspace whose root contains a subdirectory `a` that is the same
physical directory as the root itself (same inode), as a bind mount or
hard-linked structure produces.  `os.walk(..., followlinks=False)` descends
into it because it is a real directory, not a symlink. -/
def cycGraph : Graph := fun _ => ⟨7, [("a", 0)], []⟩

/-- RESULT C10: scanning a nonexistent workspace path returns the empty
structure `{directories := [], files := [], total_files := 0, total_dirs := 0,
truncated := false}` without any error, and scanning an existing empty
directory returns the very same value, so the two cases are indistinguishable
from the scan result alone. -/
theorem scan_nonexistent_eq_empty :
    scan_workspace_structure emptyDirGraph none 4 1 = some emptyScanStructure ∧
    scan_workspace_structure emptyDirGraph (some 0) 4 1 = some emptyScanStructure ∧
    emptyScanStructure =
      { directories := [], files := [], total_files := 0, total_dirs := 0,
        truncated := false } :=
  ⟨rfl, rfl, rfl⟩

/-- Once the cyclic root's inode is recorded, every subsequent frame hits the
inode guard, which leaves the accumulated structure and counters untouched but
still pushes the subdirectory frame (the guard is a bare `continue`: it never
clears `dirs`), so the worklist never empties and no amount of fuel finishes
the walk. -/
theorem scanWalk_cyc_none (fuel : Nat) :
    ∀ rel, scanWalk cycGraph 4 fuel [⟨0, rel⟩] emptyScanStructure [7] = none := by
  induction fuel with
  | zero => intro rel; rfl
  | succ n ih => intro rel; exact ih (rel ++ ["a"])

/-- RESULT C5 (divergence evidence): on a workspace whose physical directory
structure is cyclic — the root reappears as its own subdirectory `a` — the
scan never terminates: for every fuel bound the walk is still running.  The
inode guard prevents the repeated directory from being recorded twice, but it
does not stop `os.walk` from descending into it, and since nothing is recorded
the file/directory ceilings never trigger either. -/
theorem scan_cycle_never_terminates (fuel : Nat) :
    scan_workspace_structure cycGraph (some 0) 4 fuel = none := by
  cases fuel with
  | zero => rfl
  | succ n => exact scanWalk_cyc_none n ["a"]

/-- RESULT C4 (counterexample): the workspace `bigGraph` contains
`10001 > MAX_FILES` files, yet the scan returns `truncated = false` — the file
ceiling is reached among the files of the last directory walked, the excess
file is silently dropped, and no further iteration runs to set the flag.  The
claim that such a tree always yields `truncated = true` is therefore false;
the files list does have length exactly `MAX_FILES`. -/
theorem scan_truncated_flag_cex :
    bigDirNode.files.length = 10001 ∧ MAX_FILES = 10000 ∧
    ∃ st, scan_workspace_structure bigGraph (some 0) 4 1 = some st ∧
      st.truncated = false ∧ st.files.length = MAX_FILES := by
  refine ⟨show (List.replicate 10001 ("f", "")).length = 10001 by
    rw [List.length_replicate], rfl, ?_⟩
  refine ⟨scanAddFiles "." ((List.replicate 10001 ("f", "")).map Prod.fst)
    emptyScanStructure, rfl, ?_, ?_⟩
  · rw [scanAddFiles_truncated]; rfl
  · have hlen := scanAddFiles_len "." ((List.replicate 10001 ("f", "")).map Prod.fst)
      emptyScanStructure rfl
    have htot := scanAddFiles_total "." ((List.replicate 10001 ("f", "")).map Prod.fst)
      emptyScanStructure (Nat.zero_le _)
    have hl : ((List.replicate 10001 ("f", "")).map Prod.fst).length = 10001 := by
      rw [List.length_map, List.length_replicate]
    rw [hlen, htot, hl]
    decide

/-- RESULT C4 (amended): for every workspace, the scan never returns more than
`MAX_FILES` files — the per-file ceiling check holds — and the partial results
collected up to the ceiling are returned; but `truncated` is only set when a
further directory iteration begins after a ceiling has been reached, so it can
remain `false` even though files were dropped (see the counterexample). -/
theorem scan_files_length_le_max (g : Graph) (root : Option Nat) (d fuel : Nat)
    (st : ScanStructure) (h : scan_workspace_structure g root d fuel = some st) :
    st.files.length ≤ MAX_FILES := by
  cases root with
  | none =>
      have h' : some emptyScanStructure = some st := h
      cases Option.some.inj h'
      exact Nat.zero_le _
  | some r =>
      obtain ⟨h1, h2⟩ := scanWalk_files_bound g d fuel [⟨r, []⟩]
        emptyScanStructure [] rfl (Nat.zero_le _) st h
      omega

/-- Witness for the amended C4 at a concrete input. -/
theorem scan_files_length_le_max_witness :
    scan_workspace_structure emptyDirGraph (some 0) 4 1 = some emptyScanStructure ∧
    emptyScanStructure.files.length ≤ MAX_FILES :=
  ⟨rfl, scan_files_length_le_max emptyDirGraph (some 0) 4 1 emptyScanStructure rfl⟩

/-! ## StreamTranslator (`chat_stream.generate`, src/backend/main.py lines 235-283)

`json.loads` is modelled by a recursive-descent parser over the character
list, covering the JSON grammar the backend protocol uses (objects, arrays,
strings with backslash escapes, integers, `true`/`false`/`null`); any input it
does not parse in full yields `none`, as `json.loads` raises
`json.JSONDecodeError`.  The `yield`ed server-sent events are modelled by the
discriminated `StreamEvent` type carrying the `data:` payload. -/

inductive Json where
  | nul
  | bool (b : Bool)
  | num (n : Int)
  | str (s : String)
  | arr (xs : List Json)
  | obj (kvs : List (String × Json))

def skipWs : List Char → List Char
  | [] => []
  | c :: rest => if isWsChar c then skipWs rest else c :: rest

def stripLit : List Char → List Char → Option (List Char)
  | [], cs => some cs
  | _ :: _, [] => none
  | p :: ps, c :: cs => if c == p then stripLit ps cs else none

def parseStringBody (acc : List Char) : List Char → Option (String × List Char)
  | [] => none
  | c :: rest =>
      if c == '"' then some (String.mk acc.reverse, rest)
      else if c == '\\' then
        match rest with
        | [] => none
        | e :: rest2 =>
            let d := if e == 'n' then '\n'
              else if e == 't' then '\t'
              else if e == 'r' then '\r'
              else e
            parseStringBody (d :: acc) rest2
      else parseStringBody (c :: acc) rest

def parseDigits (acc : Nat) (found : Bool) : List Char → Option (Nat × List Char)
  | [] => if found then some (acc, []) else none
  | c :: rest =>
      if c.isDigit then parseDigits (acc * 10 + (c.toNat - 48)) true rest
      else if found then some (acc, c :: rest) else none

mutual

def parseValue : Nat → List Char → Option (Json × List Char)
  | 0, _ => none
  | fuel + 1, cs =>
      match skipWs cs with
      | [] => none
      | c :: rest =>
          if c == '"' then
            (parseStringBody [] rest).map (fun p => (Json.str p.1, p.2))
          else if c == 't' then
            (stripLit ['r', 'u', 'e'] rest).map (fun r => (Json.bool true, r))
          else if c == 'f' then
            (stripLit ['a', 'l', 's', 'e'] rest).map (fun r => (Json.bool false, r))
          else if c == 'n' then
            (stripLit ['u', 'l', 'l'] rest).map (fun r => (Json.nul, r))
          else if c == Char.ofNat 123 then
            match skipWs rest with
            | [] => none
            | d :: rest2 =>
                if d == Char.ofNat 125 then some (Json.obj [], rest2)
                else parseMembers fuel (d :: rest2) []
          else if c == '[' then
            match skipWs rest with
            | [] => none
            | d :: rest2 =>
                if d == ']' then some (Json.arr [], rest2)
                else parseElems fuel (d :: rest2) []
          else if c == '-' then
            (parseDigits 0 false rest).map (fun p => (Json.num (-(p.1 : Int)), p.2))
          else if c.isDigit then
            (parseDigits 0 false (c :: rest)).map (fun p => (Json.num (p.1 : Int), p.2))
          else none

def parseMembers : Nat → List Char → List (String × Json) → Option (Json × List Char)
  | 0, _, _ => none
  | fuel + 1, cs, acc =>
      match skipWs cs with
      | [] => none
      | c :: rest =>
          if c == '"' then
            match parseStringBody [] rest with
            | none => none
            | some (key, afterKey) =>
                match skipWs afterKey with
                | ':' :: afterColon =>
                    match parseValue fuel afterColon with
                    | none => none
                    | some (v, afterVal) =>
                        match skipWs afterVal with
                        | [] => none
                        | ',' :: afterComma =>
                            parseMembers fuel afterComma (acc ++ [(key, v)])
                        | d :: afterClose =>
                            if d == Char.ofNat 125 then
                              some (Json.obj (acc ++ [(key, v)]), afterClose)
                            else none
                | _ => none
          else none

def parseElems : Nat → List Char → List Json → Option (Json × List Char)
  | 0, _, _ => none
  | fuel + 1, cs, acc =>
      match parseValue fuel cs with
      | none => none
      | some (v, after) =>
          match skipWs after with
          | [] => none
          | ',' :: rest => parseElems fuel rest (acc ++ [v])
          | c :: rest => if c == ']' then some (Json.arr (acc ++ [v]), rest) else none

end

/-- Python `json.loads(line)`: parse one complete JSON value, requiring the whole
input to be consumed (up to trailing whitespace). -/
def json_loads (s : String) : Option Json :=
  match parseValue (s.length + 1) s.data with
  | some (v, rest) => if (skipWs rest).isEmpty then some v else none
  | none => none

/-- Python truthiness (`if content:` / `if chunk.get("done", False):`). -/
def truthy : Json → Bool
  | Json.nul => false
  | Json.bool b => b
  | Json.num n => n != 0
  | Json.str s => !s.isEmpty
  | Json.arr xs => !xs.isEmpty
  | Json.obj kvs => !kvs.isEmpty

/-- Python dict lookup on a parsed JSON object (duplicate keys: last wins, as
in `json.loads`). -/
def dictGet (kvs : List (String × Json)) (k : String) : Option Json :=
  match kvs with
  | [] => none
  | (k', v) :: rest =>
      match dictGet rest k with
      | some v' => some v'
      | none => if k' == k then some v else none

/-- One server-sent event, identified by its `data:` payload. -/
inductive StreamEvent where
  | content (c : Json)
  | done
  | error (msg : String)

/-- The per-chunk body of the stream loop: if `"message" in chunk` then take
`chunk["message"].get("content", "")` and yield a content event when the
content is truthy; independently, if `chunk.get("done", False)` is truthy,
yield a done event.  A chunk that is not a JSON object (or whose `message`
value is not an object) makes the Python attribute/subscript access raise,
which escapes the inner `except json.JSONDecodeError` and is caught only by
the outer generic handler: that is the `Except.error` case. -/
def chunk_events (chunk : Json) : Except String (List StreamEvent) :=
  match chunk with
  | Json.obj kvs =>
      let doneEvs :=
        if truthy ((dictGet kvs "done").getD (Json.bool false)) then
          [StreamEvent.done]
        else []
      match dictGet kvs "message" with
      | some (Json.obj mkvs) =>
          let c := (dictGet mkvs "content").getD (Json.str "")
          let contentEvs := if truthy c then [StreamEvent.content c] else []
          Except.ok (contentEvs ++ doneEvs)
      | some _ => Except.error "message value has no attribute get"
      | none => Except.ok doneEvs
  | _ => Except.error "chunk is not a mapping"

/-- The whole `generate()` stream translator over the backend's line stream.
`fail = some msg` models the transport failing (connection error, timeout,
non-2xx status) after the listed lines were delivered, with `msg` the message
already formatted by the matching `except` branch; the corresponding single
error event is emitted after the events of the delivered lines.  Blank lines
are skipped (`if line.strip():`), lines that fail `json.loads` are dropped and
the loop continues, and a chunk whose field access raises aborts the stream
with one error event (outer `except`).  Note the `done` branch does NOT stop
the loop: there is no `break` after yielding the done event. -/
def chat_stream_translate : List String → Option String → List StreamEvent
  | [], none => []
  | [], some msg => [StreamEvent.error msg]
  | line :: rest, fail =>
      if (pyStrip line).isEmpty then chat_stream_translate rest fail
      else
        match json_loads line with
        | none => chat_stream_translate rest fail
        | some chunk =>
            match chunk_events chunk with
            | Except.ok evs => evs ++ chat_stream_translate rest fail
            | Except.error msg => [StreamEvent.error ("Error: " ++ msg)]

def isTerminalEvent : StreamEvent → Bool
  | StreamEvent.done => true
  | StreamEvent.error _ => true
  | StreamEvent.content _ => false

def terminalCount (evs : List StreamEvent) : Nat :=
  (evs.filter isTerminalEvent).length

/-- RESULT C8: on the spec's concrete three-line stream the translator emits
`content "a"`, then `content "b"`, then `done`, in that order; the malformed
middle line produces no event and does not terminate the stream. -/
theorem chat_stream_order_example :
    chat_stream_translate
        ["\x7b\"message\":\x7b\"content\":\"a\"\x7d\x7d", "garbage",
         "\x7b\"message\":\x7b\"content\":\"b\"\x7d,\"done\":true\x7d"] none =
      [StreamEvent.content (Json.str "a"), StreamEvent.content (Json.str "b"),
       StreamEvent.done] := by
  rfl

/-- RESULT C6 (counterexample): a backend stream consisting of two lines each
flagged as the terminal increment makes the translator emit two `done` events
— the loop body has no `break` after yielding the done signal, so it keeps
reading input and a second terminal event follows the first. -/
theorem chat_stream_double_done_cex :
    chat_stream_translate ["\x7b\"done\":true\x7d", "\x7b\"done\":true\x7d"] none =
      [StreamEvent.done, StreamEvent.done] ∧
    terminalCount
      (chat_stream_translate ["\x7b\"done\":true\x7d", "\x7b\"done\":true\x7d"] none) = 2 :=
  ⟨rfl, rfl⟩

/-- A line the loop handles without an exception escaping to the outer
handler: blank, unparseable (dropped by the inner `except`), or parsed with a
clean field access. -/
def lineOkB (line : String) : Bool :=
  if (pyStrip line).isEmpty then true
  else
    match json_loads line with
    | none => true
    | some chunk =>
        match chunk_events chunk with
        | Except.ok _ => true
        | Except.error _ => false

/-- The line parses to a chunk flagged as the terminal increment
(`chunk.get("done", False)` truthy). -/
def lineDoneB (line : String) : Bool :=
  if (pyStrip line).isEmpty then false
  else
    match json_loads line with
    | none => false
    | some chunk =>
        match chunk with
        | Json.obj kvs => truthy ((dictGet kvs "done").getD (Json.bool false))
        | _ => false

def doneLineCount (lines : List String) : Nat :=
  (lines.filter lineDoneB).length

theorem terminalCount_append (a b : List StreamEvent) :
    terminalCount (a ++ b) = terminalCount a + terminalCount b := by
  simp [terminalCount, List.filter_append]

theorem doneLineCount_cons (l : String) (rest : List String) :
    doneLineCount (l :: rest) =
      (if lineDoneB l then 1 else 0) + doneLineCount rest := by
  by_cases h : lineDoneB l <;> simp [doneLineCount, List.filter_cons, h]
  omega

/-- For a chunk handled without exception, the events it yields contain
exactly one terminal event when its done flag is truthy, and none otherwise
(content events are never terminal). -/
theorem chunk_events_terminal (kvs : List (String × Json)) (evs : List StreamEvent)
    (h : chunk_events (Json.obj kvs) = Except.ok evs) :
    terminalCount evs =
      if truthy ((dictGet kvs "done").getD (Json.bool false)) then 1 else 0 := by
  simp only [chunk_events] at h
  cases hm : dictGet kvs "message" with
  | none =>
      rw [hm] at h
      simp only [Except.ok.injEq] at h
      subst h
      split <;> rfl
  | some m =>
      cases m with
      | obj mkvs =>
          rw [hm] at h
          simp only [Except.ok.injEq] at h
          subst h
          rw [terminalCount_append]
          split
          · split <;> rfl
          · split <;> rfl
      | nul => rw [hm] at h; cases h
      | bool b => rw [hm] at h; cases h
      | num n => rw [hm] at h; cases h
      | str s => rw [hm] at h; cases h
      | arr xs => rw [hm] at h; cases h

/-- With no transport failure and every line handled cleanly, the translator
emits exactly one terminal event per done-flagged line: terminal events and
done-flagged input lines are in bijection. -/
theorem chat_stream_terminal_eq_done (lines : List String)
    (hok : ∀ l ∈ lines, lineOkB l = true) :
    terminalCount (chat_stream_translate lines none) = doneLineCount lines := by
  induction lines with
  | nil => rfl
  | cons l rest ih =>
      have hokl : lineOkB l = true := hok l (by simp)
      have hokr : ∀ x ∈ rest, lineOkB x = true := fun x hx => hok x (by simp [hx])
      rw [doneLineCount_cons]
      by_cases hb : (pyStrip l).isEmpty
      · have h1 : chat_stream_translate (l :: rest) none =
            chat_stream_translate rest none := by
          simp [chat_stream_translate, hb]
        have h2 : lineDoneB l = false := by simp [lineDoneB, hb]
        rw [h1, h2, ih hokr]
        simp
      · cases hj : json_loads l with
        | none =>
            have h1 : chat_stream_translate (l :: rest) none =
                chat_stream_translate rest none := by
              simp [chat_stream_translate, hb, hj]
            have h2 : lineDoneB l = false := by simp [lineDoneB, hb, hj]
            rw [h1, h2, ih hokr]
            simp
        | some chunk =>
            cases hce : chunk_events chunk with
            | error m =>
                rw [lineOkB, if_neg hb, hj] at hokl
                simp [hce] at hokl
            | ok evs =>
                have h1 : chat_stream_translate (l :: rest) none =
                    evs ++ chat_stream_translate rest none := by
                  simp [chat_stream_translate, hb, hj, hce]
                rw [h1, terminalCount_append, ih hokr]
                cases chunk with
                | obj kvs =>
                    have h2 : lineDoneB l =
                        truthy ((dictGet kvs "done").getD (Json.bool false)) := by
                      simp [lineDoneB, hb, hj]
                    rw [chunk_events_terminal kvs evs hce, h2]
                | nul => cases hce
                | bool b => cases hce
                | num n => cases hce
                | str s => cases hce
                | arr xs => cases hce

/-- RESULT C6 (amended): the translator emits one `done` event per parsed
done-flagged line and does not stop reading after it; consequently, for every
stream with no transport failure, in which every line is handled without an
exception and at most one line is flagged done, at most one terminal event is
emitted in total.  (A stream with two done-flagged lines yields two terminal
events — see the counterexample.) -/
theorem chat_stream_terminal_at_most_one (lines : List String)
    (hok : ∀ l ∈ lines, lineOkB l = true)
    (hd : doneLineCount lines ≤ 1) :
    terminalCount (chat_stream_translate lines none) ≤ 1 := by
  rw [chat_stream_terminal_eq_done lines hok]
  exact hd

/-- Witness for the amended C6 at a concrete two-line stream. -/
theorem chat_stream_terminal_at_most_one_witness :
    (∀ l ∈ ["\x7b\"message\":\x7b\"content\":\"hi\"\x7d\x7d", "\x7b\"done\":true\x7d"],
        lineOkB l = true) ∧
    doneLineCount
      ["\x7b\"message\":\x7b\"content\":\"hi\"\x7d\x7d", "\x7b\"done\":true\x7d"] ≤ 1 ∧
    terminalCount (chat_stream_translate
      ["\x7b\"message\":\x7b\"content\":\"hi\"\x7d\x7d", "\x7b\"done\":true\x7d"]
      none) ≤ 1 :=
  ⟨by decide, by decide, chat_stream_terminal_at_most_one _ (by decide) (by decide)⟩

/-! ## ToolDispatcher (`run_tool` and the tool handlers, src/backend/tools_router.py)

The Ollama transport is a parameter `post : (model, prompt) ↦ Except`:
`Except.error msg` models `httpx` raising a connection-level exception with
message `msg`; `Except.ok (status, resp)` models an HTTP response with that
status code whose parsed body carries `resp` in its `response` field.  The
filesystem environment pairs the directory graph with the
`Path(workspace_path).exists()` lookup from a raw workspace path to its root
node. -/

def OllamaPost : Type := String → String → Except String (Nat × String)

/-- Source `run_ollama_model(model, prompt)`: note that both a non-200 status and a
raised exception are converted into ordinary RETURNED strings, not errors. -/
def run_ollama_model (post : OllamaPost) (model prompt : String) : String :=
  match post model prompt with
  | Except.error e => "Error calling model: " ++ e
  | Except.ok (status, resp) =>
      if status = 200 then resp
      else "Error: Model returned status " ++ toString status

structure FsEnv where
  graph : Graph
  lookupRoot : String → Option Nat

/-- Prompt of `tool_summarize_workspace` (source lines 117-138). -/
def summarize_prompt (s : ScanStructure) : String :=
  let dirs_text := String.intercalate "\n"
    ((pySorted (s.directories.take 50)).map (fun d => "  📁 " ++ d))
  let files_text := String.intercalate "\n"
    ((pySorted (s.files.take 100)).map (fun f => "  📄 " ++ f))
  "You are an AI workspace analyst. Summarize the following project structure in clear bullet points.\n\nWORKSPACE STRUCTURE:\n\nDirectories ("
    ++ toString s.total_dirs ++ " total):\n" ++ dirs_text
    ++ "\n\nFiles (" ++ toString s.total_files ++ " total, showing first 100):\n"
    ++ files_text
    ++ "\n\nAnalyze and provide:\n1. Main project type and purpose (based on structure)\n2. Key directories and their likely roles\n3. Frontend/Backend boundaries (if applicable)\n4. Frameworks or technologies identified\n5. Overall project organization assessment\n\nBe concise and insightful."

/-- Source `tool_summarize_workspace`: scans the workspace path DIRECTLY — no
`validate_safe_path` call appears anywhere in `tools_router.py` — and issues
one blocking model call on the rendered prompt. -/
def tool_summarize_workspace (post : OllamaPost) (env : FsEnv) (fuel : Nat)
    (workspace_path model : String) : Option String :=
  (scan_workspace_structure env.graph (env.lookupRoot workspace_path) 4 fuel).map
    (fun s => run_ollama_model post model (summarize_prompt s))

/-- Python `Path(file_path).suffix or "no-extension"` on a scan-relative path. -/
def extOf (file_path : String) : String :=
  let ext := pySuffix ((splitOnChar '/' file_path).getLastD "")
  if ext = "" then "no-extension" else ext

def dedupKeys : List String → List String
  | [] => []
  | k :: rest => k :: (dedupKeys rest).filter (fun k' => !(k' == k))

/-- The `by_extension` grouping and `organized_list` rendering of
`tool_list_files` (source lines 146-162): keys sorted, files of each
extension listed in scan order, sorted, capped at 50 per type. -/
def list_files_summary (files : List String) : String :=
  String.intercalate "\n"
    ((pySorted (dedupKeys (files.map extOf))).flatMap (fun ext =>
      let fs := files.filter (fun f => extOf f == ext)
      ("\n" ++ ext ++ " files (" ++ toString fs.length ++ "):")
        :: ((pySorted fs).take 50).map (fun f => "  - " ++ f)))

def list_files_prompt (s : ScanStructure) : String :=
  "You are an AI file system analyst. The following files were found in the workspace:\n\nTOTAL FILES: "
    ++ toString s.total_files ++ "\nTOTAL DIRECTORIES: " ++ toString s.total_dirs
    ++ "\n\nFILES BY TYPE:\n" ++ list_files_summary s.files
    ++ "\n\nProvide a concise summary:\n1. What types of files dominate?\n2. Are there any missing important files (e.g., README, config files)?\n3. Is the project well-organized?\n4. Any observations about file naming or structure?"

def tool_list_files (post : OllamaPost) (env : FsEnv) (fuel : Nat)
    (workspace_path model : String) : Option String :=
  (scan_workspace_structure env.graph (env.lookupRoot workspace_path) 6 fuel).map
    (fun s => run_ollama_model post model (list_files_prompt s))

/-! ### `tool_scan_todos` (source lines 180-236)

A second, independent `os.walk` over the workspace: it prunes the ignore set
but has NO inode guard, NO depth ceiling and NO ceiling on the number of
files opened — every file whose suffix is in `code_extensions` is opened and
read in full.  The walk state records the collected TODO items and, as the
embedding's observation of the reads the source performs, the number of
files opened. -/

structure TodoItem where
  file : String
  line : Nat
  text : String
deriving DecidableEq, Repr

def todo_code_extensions : List String :=
  [".ts", ".tsx", ".js", ".jsx", ".py", ".md", ".txt"]

/-- Python `str((Path(root) / file).relative_to(workspace))`. -/
def relPathStr (rel : List String) (name : String) : String :=
  String.intercalate "/" (rel ++ [name])

/-- The `for i, line in enumerate(lines, 1)` loop over one file's lines. -/
def collectTodoLines (relp : String) : Nat → List String → List TodoItem
  | _, [] => []
  | i, line :: rest =>
      let lw := pyLower line
      (if containsSub "todo" lw || containsSub "fixme" lw then
        [⟨relp, i, pyStrip line⟩]
      else []) ++ collectTodoLines relp (i + 1) rest

structure TodoScan where
  todos : List TodoItem
  opened : Nat
deriving Repr

def todoScanFiles (rel : List String) (files : List (String × String))
    (st : TodoScan) : TodoScan :=
  match files with
  | [] => st
  | (name, content) :: rest =>
      if todo_code_extensions.contains (pySuffix name) then
        todoScanFiles rel rest
          { todos := st.todos ++
              collectTodoLines (relPathStr rel name) 1 (splitOnChar '\n' content),
            opened := st.opened + 1 }
      else todoScanFiles rel rest st

def todoWalk (g : Graph) : Nat → List WalkFrame → TodoScan → Option TodoScan
  | _, [], st => some st
  | 0, _ :: _, _ => none
  | fuel + 1, fr :: rest, st =>
      let node := g fr.node
      let pruned := node.subdirs.filter (fun c => !(ignore_dirs.contains c.1))
      let st' := todoScanFiles fr.rel node.files st
      todoWalk g fuel ((pruned.map (fun c => ⟨c.2, fr.rel ++ [c.1]⟩)) ++ rest) st'

/-- The collection phase of `tool_scan_todos`; `root = none` models a
nonexistent workspace path (`os.walk` yields nothing there). -/
def scan_todos_collect (g : Graph) (root : Option Nat) (fuel : Nat) :
    Option TodoScan :=
  match root with
  | none => some ⟨[], 0⟩
  | some r => todoWalk g fuel [⟨r, []⟩] ⟨[], 0⟩

/-- Python `todos[:50]` — only the PROMPT is capped, not the files read. -/
def todos_prompt_entries (todos : List TodoItem) : List TodoItem :=
  todos.take 50

def todos_text (todos : List TodoItem) : String :=
  String.intercalate "\n" ((todos_prompt_entries todos).map
    (fun t => t.file ++ ":" ++ toString t.line ++ "\n  " ++ t.text))

def scan_todos_prompt (todos : List TodoItem) : String :=
  "You are an AI code auditor. The following TODO/FIXME comments were found in the codebase:\n\nTOTAL FOUND: "
    ++ toString todos.length
    ++ "\n\nTODOS AND FIXMES (showing first 50):\n" ++ todos_text todos
    ++ "\n\nAnalyze and provide:\n1. Group by priority (critical, important, nice-to-have)\n2. Group by file or module\n3. Suggest which TODOs should be addressed first\n4. Any patterns or concerns in the TODOs?"

def tool_scan_todos (post : OllamaPost) (env : FsEnv) (fuel : Nat)
    (workspace_path model : String) : Option String :=
  (scan_todos_collect env.graph (env.lookupRoot workspace_path) fuel).map
    (fun st =>
      if st.todos.isEmpty then "No TODO or FIXME comments found in the workspace."
      else run_ollama_model post model (scan_todos_prompt st.todos))

/-! ### `tool_analyze_codebase` (source lines 238-302)

Also walks with a bare pruned `os.walk`; it reads every matching file IN FULL
(`await f.read()`), truncates the preview to 50 lines / 2000 characters, and
stops — inner and outer `break` — once 20 files have been collected. -/

def cb_code_extensions : List String := [".ts", ".tsx", ".js", ".jsx", ".py"]

/-- First 50 lines of the full content, then first 2000 characters. -/
def previewOf (content : String) : String :=
  String.mk ((String.intercalate "\n" ((splitOnChar '\n' content).take 50)).data.take 2000)

def cbScanFiles (rel : List String) (files : List (String × String))
    (acc : List (String × String)) : List (String × String) :=
  match files with
  | [] => acc
  | (name, content) :: rest =>
      if cb_code_extensions.contains (pySuffix name) then
        let acc' := acc ++ [(relPathStr rel name, previewOf content)]
        if acc'.length ≥ 20 then acc' else cbScanFiles rel rest acc'
      else cbScanFiles rel rest acc

def cbWalk (g : Graph) :
    Nat → List WalkFrame → List (String × String) → Option (List (String × String))
  | _, [], acc => some acc
  | 0, _ :: _, _ => none
  | fuel + 1, fr :: rest, acc =>
      let node := g fr.node
      let pruned := node.subdirs.filter (fun c => !(ignore_dirs.contains c.1))
      let acc' := cbScanFiles fr.rel node.files acc
      if acc'.length ≥ 20 then some acc'
      else cbWalk g fuel ((pruned.map (fun c => ⟨c.2, fr.rel ++ [c.1]⟩)) ++ rest) acc'

def analyze_codebase_collect (g : Graph) (root : Option Nat) (fuel : Nat) :
    Option (List (String × String)) :=
  match root with
  | none => some []
  | some r => cbWalk g fuel [⟨r, []⟩] []

def analyze_prompt (items : List (String × String)) : String :=
  "You are an AI software architect. Analyze the following code snippets from this project:\n\nTOTAL CODE FILES ANALYZED: "
    ++ toString items.length ++ "\n\nCODE SAMPLES:\n"
    ++ String.intercalate "\n\n---\n\n"
        (items.map (fun it => "FILE: " ++ it.1 ++ "\n" ++ it.2))
    ++ "\n\nProvide a detailed analysis:\n1. What is the overall architecture pattern?\n2. What frameworks and libraries are being used?\n3. Code quality observations\n4. Are there any anti-patterns or concerns?\n5. Suggestions for improvement\n6. Is the code well-structured?"

def tool_analyze_codebase (post : OllamaPost) (env : FsEnv) (fuel : Nat)
    (workspace_path model : String) : Option String :=
  (analyze_codebase_collect env.graph (env.lookupRoot workspace_path) fuel).map
    (fun items =>
      if items.isEmpty then "No code files found to analyze."
      else run_ollama_model post model (analyze_prompt items))

/-! ### `tool_generate_readme` and `tool_summarize_csv` -/

/-- Contents of a file sitting directly in the workspace root, if present
(`(Path(workspace_path) / name).exists()` plus the read). -/
def rootFileContent (env : FsEnv) (workspace_path name : String) : Option String :=
  match env.lookupRoot workspace_path with
  | none => none
  | some r => (((env.graph r).files.find? (fun f => f.1 == name)).map Prod.snd)

def readme_package_info (env : FsEnv) (workspace_path : String) : String :=
  (match rootFileContent env workspace_path "package.json" with
   | some c => "\npackage.json found\n" ++ c ++ "\n"
   | none => "")
  ++ (match rootFileContent env workspace_path "requirements.txt" with
      | some c => "\nrequirements.txt found\n" ++ c ++ "\n"
      | none => "")

def readme_prompt (s : ScanStructure) (package_info : String) : String :=
  "You are a technical documentation expert. Generate a professional README.md file for this project.\n\nPROJECT STRUCTURE:\n"
    ++ toString s.total_dirs ++ " directories, " ++ toString s.total_files ++ " files\n\nKey directories:\n"
    ++ String.intercalate "\n" ((pySorted (s.directories.take 30)).map (fun d => "  " ++ d))
    ++ "\n\n" ++ package_info
    ++ "\n\nGenerate a complete README.md with:\n1. # Project Title (infer from structure)\n2. ## Description (what the project does)\n3. ## Features (key capabilities)\n4. ## Installation (setup instructions)\n5. ## Usage (how to run)\n6. ## Project Structure (explain key folders)\n7. ## Technologies Used\n8. ## License (suggest MIT or appropriate)\n\nWrite in Markdown format. Be professional and clear."

def tool_generate_readme (post : OllamaPost) (env : FsEnv) (fuel : Nat)
    (workspace_path model : String) : Option String :=
  (scan_workspace_structure env.graph (env.lookupRoot workspace_path) 4 fuel).map
    (fun s => run_ollama_model post model
      (readme_prompt s (readme_package_info env workspace_path)))

/-- The validated shape of `activeSheetData` after the `.get` defaults of
`tool_summarize_csv` (`columns`, `rows`, `name` defaulting to `"Unknown"`). -/
structure SheetData where
  columns : List String
  rows : List (List String)
  name : String

def summarize_csv_prompt (d : SheetData) : String :=
  "You are a data analyst. Summarize the following dataset:\n\nDATASET: " ++ d.name
    ++ "\nCOLUMNS: " ++ toString d.columns.length
    ++ "\nROWS: " ++ toString d.rows.length
    ++ "\n\nColumn names:\n" ++ String.intercalate ", " d.columns
    ++ "\n\nSample data (first 10 rows):\n"
    ++ String.intercalate "\n"
        ((d.rows.take 10).map (fun row => "  " ++ String.intercalate " | " row))
    ++ "\n\nProvide:\n1. What type of data is this?\n2. What insights can you draw?\n3. Any data quality observations?\n4. Suggested analyses or visualizations\n5. Key patterns or trends visible"

def tool_summarize_csv (post : OllamaPost) (d : Option SheetData) (model : String) :
    String :=
  match d with
  | none => "No active sheet data provided."
  | some data =>
      if data.columns.isEmpty || data.rows.isEmpty then "Sheet data is empty or invalid."
      else run_ollama_model post model (summarize_csv_prompt data)

/-! ### The dispatcher `run_tool` (source lines 393-428) -/

structure ToolRunRequest where
  toolName : String
  workspacePath : String
  activeSheetData : Option SheetData
  model : String

structure ToolResponse where
  success : Bool
  tool : String
  result : String
deriving DecidableEq, Repr

/-- Source `run_tool(request)`: rejects an empty model (400) and an unknown tool name
(400), and otherwise routes to the handler and wraps its returned string as
`{success: true, tool, result}`.  NOTE: no path validation of any kind occurs
here or in any handler — `tools_router.py` neither imports nor defines
`validate_safe_path` or `WORKSPACE_ROOT`. -/
def run_tool (post : OllamaPost) (env : FsEnv) (fuel : Nat)
    (req : ToolRunRequest) : Option (Except HErr ToolResponse) :=
  if req.model = "" then some (Except.error ⟨400, "Model is required"⟩)
  else if req.toolName = "summarize_workspace" then
    (tool_summarize_workspace post env fuel req.workspacePath req.model).map
      (fun r => Except.ok ⟨true, req.toolName, r⟩)
  else if req.toolName = "list_files" then
    (tool_list_files post env fuel req.workspacePath req.model).map
      (fun r => Except.ok ⟨true, req.toolName, r⟩)
  else if req.toolName = "scan_todos" then
    (tool_scan_todos post env fuel req.workspacePath req.model).map
      (fun r => Except.ok ⟨true, req.toolName, r⟩)
  else if req.toolName = "analyze_codebase" then
    (tool_analyze_codebase post env fuel req.workspacePath req.model).map
      (fun r => Except.ok ⟨true, req.toolName, r⟩)
  else if req.toolName = "generate_readme" then
    (tool_generate_readme post env fuel req.workspacePath req.model).map
      (fun r => Except.ok ⟨true, req.toolName, r⟩)
  else if req.toolName = "summarize_csv" then
    some (Except.ok ⟨true, req.toolName,
      tool_summarize_csv post req.activeSheetData req.model⟩)
  else some (Except.error ⟨400, "Unknown tool: " ++ req.toolName⟩)

/-! ### Claim theorems about the dispatcher -/

/-- A workspace environment in which `/outside` exists but lies OUTSIDE any
authorized root: the dispatcher has no notion of a root at all, so the
environment needs none either. -/
def outsideEnv : FsEnv :=
  { graph := fun _ => ⟨1, [], [("secret.txt", "")]⟩,
    lookupRoot := fun p => if p = "/outside" then some 0 else none }

/-- A transport that answers every generate call with status 200 and the
prompt itself as the response body, making the prompt observable. -/
def echoPost : OllamaPost := fun _ prompt => Except.ok (200, prompt)

def outsideReq : ToolRunRequest :=
  ⟨"summarize_workspace", "/outside", none, "dummy-model"⟩

/-- RESULT C2 (divergence evidence): a tool run whose `workspacePath` lies
outside any authorized root is NOT rejected — `run_tool` performs no sandbox
validation whatsoever — the directory walk over the outside tree runs, its
result is rendered into the model prompt (the outside file name `secret.txt`
appears in it), the model is called, and the caller receives
`{success: true, ...}` instead of the 403 the repository's own test
`test_tools_workspace_path_is_restricted` expects. -/
theorem run_tool_no_sandbox_check :
    run_tool echoPost outsideEnv 5 outsideReq =
      some (Except.ok ⟨true, "summarize_workspace",
        summarize_prompt (scanAddFiles "." ["secret.txt"] emptyScanStructure)⟩) ∧
    containsSub "secret.txt"
      (summarize_prompt (scanAddFiles "." ["secret.txt"] emptyScanStructure)) = true :=
  ⟨rfl, by decide⟩

def insideEnv : FsEnv :=
  { graph := fun _ => ⟨1, [], []⟩,
    lookupRoot := fun p => if p = "/allowed" then some 0 else none }

def insideReq : ToolRunRequest :=
  ⟨"summarize_workspace", "/allowed", none, "dummy-model"⟩

/-- RESULT C3 (divergence evidence): when the model call fails — the backend
answers with a non-2xx status, or the transport raises — `run_ollama_model`
swallows the failure into an `"Error: ..."` STRING, which `run_tool` wraps as
`{success: true, tool, result}`: the failure is returned inside a success
response, exactly what the claim (and the spec's error taxonomy) forbids. -/
theorem run_tool_masks_backend_failure :
    run_tool (fun _ _ => Except.ok (500, "unused")) insideEnv 5 insideReq =
      some (Except.ok ⟨true, "summarize_workspace",
        "Error: Model returned status 500"⟩) ∧
    run_tool (fun _ _ => Except.error "connection refused") insideEnv 5 insideReq =
      some (Except.ok ⟨true, "summarize_workspace",
        "Error calling model: connection refused"⟩) :=
  ⟨rfl, rfl⟩

/-- A flat workspace with `n` Python files in the root directory. -/
def flatPyGraph (n : Nat) : Graph := fun _ => ⟨1, [], List.replicate n ("a.py", "")⟩

theorem todoScanFiles_opened_replicate (rel : List String) (n : Nat) (st : TodoScan) :
    (todoScanFiles rel (List.replicate n ("a.py", "")) st).opened = st.opened + n := by
  induction n generalizing st with
  | zero => rfl
  | succ m ih =>
      have step : todoScanFiles rel (("a.py", "") :: List.replicate m ("a.py", "")) st =
          todoScanFiles rel (List.replicate m ("a.py", ""))
            { todos := st.todos ++
                collectTodoLines (relPathStr rel "a.py") 1 (splitOnChar '\n' ""),
              opened := st.opened + 1 } := rfl
      rw [List.replicate_succ, step, ih]
      show st.opened + 1 + m = st.opened + (m + 1)
      omega

theorem scan_todos_opened_flat (n : Nat) :
    scan_todos_collect (flatPyGraph n) (some 0) 1 =
      some (todoScanFiles [] (List.replicate n ("a.py", "")) ⟨[], 0⟩) := rfl

/-- RESULT C9 (counterexample): `tool_scan_todos` has NO fixed ceiling on the
number of files it opens — for every candidate bound `K` there is a workspace
(`K + 1` Python files in one flat directory) whose scan opens more than `K`
files, so the number of files inspected is not bounded by any constant
independent of workspace size. -/
theorem scan_todos_files_opened_unbounded :
    ¬ ∃ K : Nat, ∀ (g : Graph) (root : Option Nat) (fuel : Nat) (st : TodoScan),
        scan_todos_collect g root fuel = some st → st.opened ≤ K := by
  rintro ⟨K, h⟩
  have hle := h (flatPyGraph (K + 1)) (some 0) 1 _ (scan_todos_opened_flat (K + 1))
  have hco : (todoScanFiles [] (List.replicate (K + 1) ("a.py", "")) ⟨[], 0⟩).opened
      = 0 + (K + 1) := todoScanFiles_opened_replicate [] (K + 1) ⟨[], 0⟩
  omega

theorem cbScanFiles_le (rel : List String) (files : List (String × String)) :
    ∀ acc : List (String × String), acc.length < 20 →
      (cbScanFiles rel files acc).length ≤ 20 := by
  induction files with
  | nil => intro acc h; exact Nat.le_of_lt h
  | cons f rest ih =>
      intro acc h
      obtain ⟨name, content⟩ := f
      simp only [cbScanFiles]
      split
      · split
        · simp
          omega
        · rename_i hlt
          exact ih _ (by simp at hlt ⊢; omega)
      · exact ih _ h

theorem cbWalk_le (g : Graph) :
    ∀ (fuel : Nat) (stack : List WalkFrame) (acc : List (String × String)),
      acc.length < 20 →
      ∀ out, cbWalk g fuel stack acc = some out → out.length ≤ 20 := by
  intro fuel
  induction fuel with
  | zero =>
      intro stack acc h out hout
      cases stack with
      | nil => cases hout; exact Nat.le_of_lt h
      | cons fr rest => exact absurd hout (by simp [cbWalk])
  | succ n ih =>
      intro stack acc h out hout
      cases stack with
      | nil => cases hout; exact Nat.le_of_lt h
      | cons fr rest =>
          simp only [cbWalk] at hout
          split at hout
          · cases hout
            exact cbScanFiles_le fr.rel (g fr.node).files acc h
          · rename_i hlt
            exact ih _ _ (by omega) out hout

/-- RESULT C9 (amended): `tool_analyze_codebase` is bounded as claimed — it
collects at most 20 file previews, each capped at 50 lines / 2000 characters
— and `tool_scan_todos` caps only the number of TODO entries rendered into
the prompt (50); the number of files `tool_scan_todos` opens, and the amount
it reads per file, is unbounded (see the counterexample). -/
theorem analyze_codebase_bounded :
    (∀ (g : Graph) (root : Option Nat) (fuel : Nat) (items : List (String × String)),
        analyze_codebase_collect g root fuel = some items → items.length ≤ 20) ∧
    (∀ todos : List TodoItem, (todos_prompt_entries todos).length ≤ 50) := by
  constructor
  · intro g root fuel items h
    cases root with
    | none =>
        have h' : some ([] : List (String × String)) = some items := h
        cases Option.some.inj h'
        exact Nat.zero_le _
    | some r => exact cbWalk_le g fuel [⟨r, []⟩] [] (by decide) items h
  · intro todos
    simp [todos_prompt_entries]

/-- Witness for the amended C9 at a concrete input. -/
theorem analyze_codebase_bounded_witness :
    analyze_codebase_collect (flatPyGraph 1) (some 0) 1 =
      some [(relPathStr [] "a.py", previewOf "")] ∧
    [(relPathStr [] "a.py", previewOf "")].length ≤ 20 ∧
    (todos_prompt_entries []).length ≤ 50 :=
  ⟨rfl,
    analyze_codebase_bounded.1 (flatPyGraph 1) (some 0) 1 _ rfl,
    analyze_codebase_bounded.2 []⟩

end LumoraSandbox
